import Mathlib

/-!
Shallow embedding of the burchill-dev-rust-utilities postgres layer
(src/postgres/mod.rs, src/postgres/entity.rs, src/postgres/repository.rs).

Modelling conventions:
* `Uuid` is modelled as `Nat` (an opaque identity token); `DateTime<Utc>` as
  `Int` (an opaque instant).  No claim depends on their internal structure.
* quaint `Value` payloads are carried abstractly; the `f32`/`f64` payloads of
  `Float`/`Double` are opaque `Int` tokens, since every claim depends only on
  the variant kind, never on floating-point arithmetic.
* Rust `Result<T, E>` becomes `Except E T`; a hook of type
  `&mut self -> Result<()>` becomes `State -> State × Option Nat` (the hook may
  mutate the state and may additionally report an anyhow error, modelled as an
  opaque `Nat` token).
* The external pieces (quaint SQL building, the sqlx driver round trip, the
  connection pool) are abstracted as function parameters: the embedding keeps
  exactly the control flow and data flow of the repository code around them.
-/

set_option autoImplicit false

namespace Burchill

/-- Opaque model of `uuid::Uuid`. -/
abbrev Uuid := Nat

/-- Opaque model of `chrono::DateTime<Utc>`. -/
abbrev DateTimeUtc := Int

/-- Mirror of `PostgresBaseEntityData` (mod.rs lines 11-19). -/
structure PostgresBaseEntityData where
  id : Option Uuid
  created_time : Option DateTimeUtc
  created_by : Option Uuid
  last_updated_time : Option DateTimeUtc
  last_updated_by : Option Uuid
  active : Option Bool
deriving DecidableEq, Repr

/-- Mirror of `PostgresEntityManager` (entity.rs lines 10-14): the audit
envelope together with the connection pool, whose type is abstract here. -/
structure PostgresEntityManager (E : Type) where
  entity_data : PostgresBaseEntityData
  pool : E

namespace PostgresEntityManager

variable {E : Type}

/-- Mirror of `PostgresEntityManager::new` (entity.rs lines 17-29). -/
def new (pool : E) : PostgresEntityManager E :=
  { entity_data :=
      { id := none
        created_time := none
        created_by := none
        last_updated_by := none
        last_updated_time := none
        active := none }
    pool }

/-- Mirror of `get_pool` (entity.rs lines 38-40). -/
def get_pool (m : PostgresEntityManager E) : E :=
  m.pool

/-- Mirror of `get_id` (entity.rs lines 42-44). -/
def get_id (m : PostgresEntityManager E) : Option Uuid :=
  m.entity_data.id

/-- Mirror of `set_id` (entity.rs lines 46-50): writes only when the field is
`None`. -/
def set_id (m : PostgresEntityManager E) (id : Uuid) : PostgresEntityManager E :=
  match m.entity_data.id with
  | none => { m with entity_data := { m.entity_data with id := some id } }
  | some _ => m

/-- Mirror of `get_created_time` (entity.rs lines 52-54). -/
def get_created_time (m : PostgresEntityManager E) : Option DateTimeUtc :=
  m.entity_data.created_time

/-- Mirror of `set_created_time` (entity.rs lines 56-60): writes only when the
field is `None`. -/
def set_created_time (m : PostgresEntityManager E) (time : DateTimeUtc) :
    PostgresEntityManager E :=
  match m.entity_data.created_time with
  | none => { m with entity_data := { m.entity_data with created_time := some time } }
  | some _ => m

/-- Mirror of `get_last_updated_time` (entity.rs lines 62-64). -/
def get_last_updated_time (m : PostgresEntityManager E) : Option DateTimeUtc :=
  m.entity_data.last_updated_time

/-- Mirror of `set_last_updated_time` (entity.rs lines 66-68): always
overwrites. -/
def set_last_updated_time (m : PostgresEntityManager E) (time : DateTimeUtc) :
    PostgresEntityManager E :=
  { m with entity_data := { m.entity_data with last_updated_time := some time } }

/-- Mirror of `get_created_by` (entity.rs lines 70-72). -/
def get_created_by (m : PostgresEntityManager E) : Option Uuid :=
  m.entity_data.created_by

/-- Mirror of `set_created_by` (entity.rs lines 74-78): writes only when the
field is `None`. -/
def set_created_by (m : PostgresEntityManager E) (user_id : Uuid) :
    PostgresEntityManager E :=
  match m.entity_data.created_by with
  | none => { m with entity_data := { m.entity_data with created_by := some user_id } }
  | some _ => m

/-- Mirror of `get_last_updated_by` (entity.rs lines 80-82). -/
def get_last_updated_by (m : PostgresEntityManager E) : Option Uuid :=
  m.entity_data.last_updated_by

/-- Mirror of `set_last_updated_by` (entity.rs lines 84-86): always
overwrites. -/
def set_last_updated_by (m : PostgresEntityManager E) (user_id : Uuid) :
    PostgresEntityManager E :=
  { m with entity_data := { m.entity_data with last_updated_by := some user_id } }

/-- Mirror of `get_active` (entity.rs lines 88-90). -/
def get_active (m : PostgresEntityManager E) : Option Bool :=
  m.entity_data.active

/-- Mirror of `set_active` (entity.rs lines 92-94): always overwrites. -/
def set_active (m : PostgresEntityManager E) (active : Bool) :
    PostgresEntityManager E :=
  { m with entity_data := { m.entity_data with active := some active } }

end PostgresEntityManager

/-! ### quaint values and sqlx binding (mod.rs) -/

/-- Mirror of the quaint `Value` variants matched by `add_binding_to_query`
(mod.rs lines 36-51).  Payloads are nullable, as in quaint; the `Float` and
`Double` payloads are opaque tokens (no claim inspects them). -/
inductive Value where
  | Integer (v : Option Int)
  | Float (v : Option Int)
  | Double (v : Option Int)
  | Text (v : Option String)
  | Char (v : Option Char)
  | Boolean (v : Option Bool)
  | Bytes
  | ValArray
  | Enum (v : Option String)
  | Uuid (v : Option Uuid)
  | DateTime (v : Option DateTimeUtc)
  | Json
  | Xml
deriving DecidableEq, Repr

namespace Value

/-- Mirror of quaint `Value::as_i64`. -/
def as_i64 : Value → Option Int
  | .Integer v => v
  | _ => none

/-- Mirror of quaint `Value::as_f32` (payload opaque). -/
def as_f32 : Value → Option Int
  | .Float v => v
  | _ => none

/-- Mirror of quaint `Value::as_f64` (payload opaque). -/
def as_f64 : Value → Option Int
  | .Double v => v
  | _ => none

/-- Mirror of quaint `Value::into_string` (succeeds on `Text` and `Enum`). -/
def into_string : Value → Option String
  | .Text v => v
  | .Enum v => v
  | _ => none

/-- Mirror of quaint `Value::as_bool`. -/
def as_bool : Value → Option Bool
  | .Boolean v => v
  | _ => none

/-- Mirror of quaint `Value::as_uuid`. -/
def as_uuid : Value → Option Burchill.Uuid
  | .Uuid v => v
  | _ => none

/-- Mirror of quaint `Value::as_datetime`. -/
def as_datetime : Value → Option DateTimeUtc
  | .DateTime v => v
  | _ => none

end Value

/-- A parameter as bound onto a sqlx query by `add_binding_to_query`: each arm
of the match binds the value converted by the corresponding accessor. -/
inductive BoundParam where
  | i64 (v : Option Int)
  | f32 (v : Option Int)
  | f64 (v : Option Int)
  | str (v : Option String)
  | boolean (v : Option Bool)
  | uuid (v : Option Uuid)
  | datetime (v : Option DateTimeUtc)
deriving DecidableEq, Repr

/-- Model of `sqlx::query::QueryAs`: the SQL text plus the parameters bound so
far, in binding order.  `bind` appends one parameter. -/
structure QueryAs where
  sql : String
  params : List BoundParam
deriving DecidableEq, Repr

/-- Model of `QueryAs::bind`: appends one bound parameter. -/
def QueryAs.bind (q : QueryAs) (p : BoundParam) : QueryAs :=
  { q with params := q.params ++ [p] }

/-- Mirror of `BurchillPostgresError` (mod.rs lines 125-133).  The declaration
in mod.rs has exactly the variants `UnknownSqlType`, `QuaintError` and
`SqlxError`; entity.rs additionally references an `AnyhowError` variant (used
to wrap hook failures), which is included here so the lifecycle code can be
embedded.  External error payloads are opaque `Nat` tokens. -/
inductive BurchillPostgresError where
  | UnknownSqlType
  | QuaintError (e : Nat)
  | SqlxError (e : Nat)
  | AnyhowError (e : Nat)
deriving DecidableEq, Repr

/-- The variant names of the `BurchillPostgresError` declaration as it stands
in mod.rs lines 125-133. -/
def burchillPostgresErrorVariantNames : List String :=
  ["UnknownSqlType", "QuaintError", "SqlxError"]

/-- Mirror of `add_binding_to_query` (mod.rs lines 36-51): match on the value
kind, bind the converted payload, or fail with `UnknownSqlType`. -/
def add_binding_to_query (query : QueryAs) (value : Value) :
    Except BurchillPostgresError QueryAs :=
  match value with
  | .Integer _ => .ok (query.bind (.i64 value.as_i64))
  | .Float _ => .ok (query.bind (.f32 value.as_f32))
  | .Double _ => .ok (query.bind (.f64 value.as_f64))
  | .Text _ => .ok (query.bind (.str value.into_string))
  | .Boolean _ => .ok (query.bind (.boolean value.as_bool))
  | .Enum _ => .ok (query.bind (.str value.into_string))
  | .Uuid _ => .ok (query.bind (.uuid value.as_uuid))
  | .DateTime _ => .ok (query.bind (.datetime value.as_datetime))
  | _ => .error .UnknownSqlType

/-- Mirror of `add_bindings_to_query` (mod.rs lines 28-34): fold the values in
list order, stopping at the first failure. -/
def add_bindings_to_query (query : QueryAs) (params : List Value) :
    Except BurchillPostgresError QueryAs :=
  match params with
  | [] => .ok query
  | value :: rest =>
    match add_binding_to_query query value with
    | .error e => .error e
    | .ok new_query => add_bindings_to_query new_query rest

/-- Mirror of `create_sqlx_query` (mod.rs lines 63-69): start from the bare
SQL text and bind every parameter. -/
def create_sqlx_query (query : String) (bindings : List Value) :
    Except BurchillPostgresError QueryAs :=
  add_bindings_to_query { sql := query, params := [] } bindings

/-! ### The RETURNING hack of `update_and_fetch_one` (mod.rs lines 92-123) -/

/-- The for-loop of `update_and_fetch_one` (mod.rs lines 103-115): append
" RETURNING " before the first name and ", " before every later one, tracked
by the `count` counter exactly as in the source. -/
def append_returning_loop (query : String) (count : Nat) :
    List String → String
  | [] => query
  | value :: rest =>
    let query := if count == 0 then query ++ " RETURNING " else query ++ ", "
    append_returning_loop (query ++ value) (count + 1) rest

/-- The `returning_values.len() > 0` guard plus the loop (mod.rs lines
102-116). -/
def append_returning (query : String) (returning_values : List String) : String :=
  if returning_values.length > 0 then
    append_returning_loop query 0 returning_values
  else query

/-- Mirror of `update_and_fetch_one` (mod.rs lines 92-123).  The external
pieces are parameters: `built` is the outcome of
`quaint::visitor::Postgres::build(query)` (SQL text and bindings, or a quaint
error token), and `fetch` is `query.fetch_one(executor)` (a row of type `T`,
or a sqlx error token).  The function appends the RETURNING clause, binds the
parameters, and runs the fetch. -/
def update_and_fetch_one (T : Type) (built : Except Nat (String × List Value))
    (returning_values : List String) (fetch : QueryAs → Except Nat T) :
    Except BurchillPostgresError T :=
  match built with
  | .error err => .error (.QuaintError err)
  | .ok (query, bindings) =>
    let query := append_returning query returning_values
    match create_sqlx_query query bindings with
    | .error e => .error e
    | .ok q =>
      match fetch q with
      | .ok result => .ok result
      | .error err => .error (.SqlxError err)

/-! ### The audited entity lifecycle (entity.rs lines 97-242) -/

/-- Mirror of the row type `InsertReturn` (entity.rs lines 244-250). -/
structure InsertReturn where
  id : Uuid
  created_by : Uuid
  created_time : DateTimeUtc
  active : Bool
deriving DecidableEq, Repr

/-- Mirror of the row type `UpdateReturn` (entity.rs lines 252-256). -/
structure UpdateReturn where
  last_updated_by : Uuid
  last_updated_time : DateTimeUtc
deriving DecidableEq, Repr

/-- State of a concrete entity implementing `PostgresEntity<D>`: its domain
data of abstract type `D` plus its entity manager (audit envelope and pool of
abstract type `E`). -/
structure EntityState (D E : Type) where
  data : D
  manager : PostgresEntityManager E

/-- The audited insert statement produced by `create_audited_insert_query`
(entity.rs lines 237-241): the concrete entity's insert statement (an opaque
handle for the external `SingleRowInsert`) augmented with
`created_time = default_value()` (a fixed server-side marker, carried
implicitly) and `created_by = user`. -/
structure AuditedInsert where
  base : Nat
  created_by : Uuid
deriving DecidableEq, Repr

/-- The audited update statement produced by `create_audited_update_query`
(entity.rs lines 231-235): the concrete entity's update statement (an opaque
handle for the external `Update`) augmented with
`last_updated_time = Utc::now()` and `last_updated_by = user`. -/
structure AuditedUpdate where
  base : Nat
  last_updated_time : DateTimeUtc
  last_updated_by : Uuid
deriving DecidableEq, Repr

/-- What a concrete entity supplies to the `PostgresEntity` trait: the six
hooks (default implementations return the state unchanged with no error) and
the two statement builders (anyhow results, with opaque statement handles and
opaque error tokens). -/
structure EntityImpl (D E : Type) where
  pre_save_hook : EntityState D E → EntityState D E × Option Nat
  post_save_hook : EntityState D E → EntityState D E × Option Nat
  pre_insert_hook : EntityState D E → EntityState D E × Option Nat
  post_insert_hook : EntityState D E → EntityState D E × Option Nat
  pre_update_hook : EntityState D E → EntityState D E × Option Nat
  post_update_hook : EntityState D E → EntityState D E × Option Nat
  create_insert_query : EntityState D E → Except Nat Nat
  create_update_query : EntityState D E → Except Nat Nat

/-- Behaviour of the external world as seen by the lifecycle: the clock read
by `Utc::now()`, the `fetch_one` round trip of the insert path (entity.rs
line 190) and the `update_and_fetch_one` round trip of the update path
(entity.rs line 212), each parameterized by the executor. -/
structure World (E : Type) where
  now : DateTimeUtc
  insert_fetch_one : E → AuditedInsert → Except BurchillPostgresError InsertReturn
  update_fetch_one : E → AuditedUpdate → Except BurchillPostgresError UpdateReturn

/-- Ghost trace of database round trips, used to state when the lifecycle
reaches the store. -/
inductive DbOp where
  | insertTrip (q : AuditedInsert)
  | updateTrip (q : AuditedUpdate)
deriving DecidableEq, Repr

/-- Outcome of one lifecycle call: the entity state after the call, the
returned result, and the trace of database round trips made. -/
structure Outcome (D E : Type) where
  state : EntityState D E
  result : Except BurchillPostgresError Unit
  trips : List DbOp

section Lifecycle

variable {D E : Type}

/-- Mirror of `create_audited_insert_query` (entity.rs lines 237-241): build
the concrete insert statement (an anyhow failure converts to the error enum)
and augment it with the audit values. -/
def create_audited_insert_query (impl : EntityImpl D E) (user_id : Uuid)
    (s : EntityState D E) : Except BurchillPostgresError AuditedInsert :=
  match impl.create_insert_query s with
  | .error e => .error (.AnyhowError e)
  | .ok base => .ok { base, created_by := user_id }

/-- Mirror of `create_audited_update_query` (entity.rs lines 231-235): build
the concrete update statement and augment it with `Utc::now()` and the acting
user. -/
def create_audited_update_query (impl : EntityImpl D E) (now : DateTimeUtc)
    (user_id : Uuid) (s : EntityState D E) :
    Except BurchillPostgresError AuditedUpdate :=
  match impl.create_update_query s with
  | .error e => .error (.AnyhowError e)
  | .ok base => .ok { base, last_updated_time := now, last_updated_by := user_id }

/-- Mirror of `PostgresEntity::insert` (entity.rs lines 181-203): pre-insert
hook, build the audited insert, run the round trip, write the returned row
onto the envelope through the first-write-wins setters (`set_active` always
overwrites), post-insert hook. -/
def insert (impl : EntityImpl D E) (w : World E) (user_id : Uuid) (executor : E)
    (s : EntityState D E) : Outcome D E :=
  match impl.pre_insert_hook s with
  | (s1, some e) => { state := s1, result := .error (.AnyhowError e), trips := [] }
  | (s1, none) =>
    match create_audited_insert_query impl user_id s1 with
    | .error err => { state := s1, result := .error err, trips := [] }
    | .ok query =>
      match w.insert_fetch_one executor query with
      | .error err =>
        { state := s1, result := .error err, trips := [.insertTrip query] }
      | .ok result =>
        let m := s1.manager
        let m := m.set_id result.id
        let m := m.set_created_by result.created_by
        let m := m.set_created_time result.created_time
        let m := m.set_active result.active
        let s2 : EntityState D E := { s1 with manager := m }
        match impl.post_insert_hook s2 with
        | (s3, some e) =>
          { state := s3, result := .error (.AnyhowError e), trips := [.insertTrip query] }
        | (s3, none) =>
          { state := s3, result := .ok (), trips := [.insertTrip query] }

/-- Mirror of `PostgresEntity::update` (entity.rs lines 205-223): pre-update
hook, build the audited update, run the round trip, overwrite the
last-updated fields with the returned row, post-update hook. -/
def update (impl : EntityImpl D E) (w : World E) (user_id : Uuid) (executor : E)
    (s : EntityState D E) : Outcome D E :=
  match impl.pre_update_hook s with
  | (s1, some e) => { state := s1, result := .error (.AnyhowError e), trips := [] }
  | (s1, none) =>
    match create_audited_update_query impl w.now user_id s1 with
    | .error err => { state := s1, result := .error err, trips := [] }
    | .ok query =>
      match w.update_fetch_one executor query with
      | .error err =>
        { state := s1, result := .error err, trips := [.updateTrip query] }
      | .ok result =>
        let m := s1.manager
        let m := m.set_last_updated_by result.last_updated_by
        let m := m.set_last_updated_time result.last_updated_time
        let s2 : EntityState D E := { s1 with manager := m }
        match impl.post_update_hook s2 with
        | (s3, some e) =>
          { state := s3, result := .error (.AnyhowError e), trips := [.updateTrip query] }
        | (s3, none) =>
          { state := s3, result := .ok (), trips := [.updateTrip query] }

/-- Mirror of `PostgresEntity::save` (entity.rs lines 160-179): pre-save hook,
dispatch on `get_id()` to `update` (identifier present) or `insert`
(identifier absent), propagate the inner result, post-save hook. -/
def save (impl : EntityImpl D E) (w : World E) (user_id : Uuid) (executor : E)
    (s : EntityState D E) : Outcome D E :=
  match impl.pre_save_hook s with
  | (s1, some e) => { state := s1, result := .error (.AnyhowError e), trips := [] }
  | (s1, none) =>
    let inner :=
      match s1.manager.get_id with
      | some _ => update impl w user_id executor s1
      | none => insert impl w user_id executor s1
    match inner.result with
    | .error err => { state := inner.state, result := .error err, trips := inner.trips }
    | .ok () =>
      match impl.post_save_hook inner.state with
      | (s3, some e) => { state := s3, result := .error (.AnyhowError e), trips := inner.trips }
      | (s3, none) => { state := s3, result := .ok (), trips := inner.trips }

/-- Mirror of `PostgresEntity::quicksave` (entity.rs lines 225-229): read the
entity's own pool, call `save` with it as the executor, propagate an error
with the question-mark operator, and return `Ok(())` on success. -/
def quicksave (impl : EntityImpl D E) (w : World E) (user_id : Uuid)
    (s : EntityState D E) : Outcome D E :=
  let pool := s.manager.get_pool
  let outcome := save impl w user_id pool s
  match outcome.result with
  | .error err => { state := outcome.state, result := .error err, trips := outcome.trips }
  | .ok () => { state := outcome.state, result := .ok (), trips := outcome.trips }

end Lifecycle

/-! ### Spec-side definitions and proof helpers -/

/-- Spec-side predicate, from the claim's list of supported kinds: a value is
supported when it is Integer, Float, Double, Text, Boolean, Enum, Uuid or
DateTime. -/
def Value.isSupportedKind : Value → Bool
  | .Integer _ => true
  | .Float _ => true
  | .Double _ => true
  | .Text _ => true
  | .Boolean _ => true
  | .Enum _ => true
  | .Uuid _ => true
  | .DateTime _ => true
  | _ => false

/-- The parameter that `add_binding_to_query` binds for each supported kind
(one arm per match arm of the source), and `none` for the unsupported kinds. -/
def boundParamOpt (v : Value) : Option BoundParam :=
  match v with
  | .Integer _ => some (.i64 v.as_i64)
  | .Float _ => some (.f32 v.as_f32)
  | .Double _ => some (.f64 v.as_f64)
  | .Text _ => some (.str v.into_string)
  | .Boolean _ => some (.boolean v.as_bool)
  | .Enum _ => some (.str v.into_string)
  | .Uuid _ => some (.uuid v.as_uuid)
  | .DateTime _ => some (.datetime v.as_datetime)
  | _ => none

/-- The parameters that a list of values binds, in list order; `none` when
some value is unsupported (the conversion of `add_bindings_to_query`, value by
value). -/
def bindList : List Value → Option (List BoundParam)
  | [] => some []
  | v :: rest =>
    match boundParamOpt v with
    | none => none
    | some p =>
      match bindList rest with
      | none => none
      | some ps => some (p :: ps)

/-- Spec-side join, from the claim's words: the names joined by ", ". -/
def joinCommaSpace : List String → String
  | [] => ""
  | [v] => v
  | v :: rest => v ++ ", " ++ joinCommaSpace rest

/-- Recognizer for update round trips in a ghost trace. -/
def DbOp.isUpdateTrip : DbOp → Bool
  | .updateTrip _ => true
  | .insertTrip _ => false

/-- Recognizer for insert round trips in a ghost trace. -/
def DbOp.isInsertTrip : DbOp → Bool
  | .insertTrip _ => true
  | .updateTrip _ => false

/-- A hook leaves the audit envelope untouched (it may still change the
domain data or fail).  This is the frame condition under which the lifecycle
claims about audit fields are stated: hooks are arbitrary client code with
mutable access to the whole entity, so a hook that rewrote the envelope could
trivially falsify any statement about it. -/
def preserves_envelope {D E : Type}
    (hook : EntityState D E → EntityState D E × Option Nat) : Prop :=
  ∀ s : EntityState D E, ((hook s).1).manager.entity_data = s.manager.entity_data

/-- All six hooks of an implementation preserve the audit envelope.  The
default hooks of the trait (no-ops) satisfy this. -/
def hooks_preserve_envelope {D E : Type} (impl : EntityImpl D E) : Prop :=
  preserves_envelope impl.pre_save_hook ∧
  preserves_envelope impl.post_save_hook ∧
  preserves_envelope impl.pre_insert_hook ∧
  preserves_envelope impl.post_insert_hook ∧
  preserves_envelope impl.pre_update_hook ∧
  preserves_envelope impl.post_update_hook

/-- The tail of `save` after the inner operation (entity.rs lines 172-178):
propagate an inner error, otherwise run the post-save hook.  Proof helper used
to state how `save` relates to the dispatched operation. -/
def post_save_wrap {D E : Type} (impl : EntityImpl D E) (inner : Outcome D E) :
    Outcome D E :=
  match inner.result with
  | .error err => { state := inner.state, result := .error err, trips := inner.trips }
  | .ok () =>
    match impl.post_save_hook inner.state with
    | (s3, some e) => { state := s3, result := .error (.AnyhowError e), trips := inner.trips }
    | (s3, none) => { state := s3, result := .ok (), trips := inner.trips }

/-! ### Concrete material for witnesses and counterexamples -/

/-- The default hook of the trait: no mutation, no error. -/
def defaultHook {D E : Type} : EntityState D E → EntityState D E × Option Nat :=
  fun s => (s, none)

/-- A minimal concrete entity implementation: default hooks, trivial statement
builders. -/
def defaultImpl : EntityImpl Unit Unit :=
  { pre_save_hook := defaultHook
    post_save_hook := defaultHook
    pre_insert_hook := defaultHook
    post_insert_hook := defaultHook
    pre_update_hook := defaultHook
    post_update_hook := defaultHook
    create_insert_query := fun _ => .ok 0
    create_update_query := fun _ => .ok 0 }

/-- Like `defaultImpl` but with a pre-save hook that fails (error token 7)
without mutating the entity. -/
def failSaveImpl : EntityImpl Unit Unit :=
  { defaultImpl with pre_save_hook := fun s => (s, some 7) }

/-- A concrete world: the insert round trip returns the row
(id 1, created_by 2, created_time 3, active true); the update round trip
returns (last_updated_by 4, last_updated_time 5). -/
def w0 : World Unit :=
  { now := 0
    insert_fetch_one := fun _ _ =>
      .ok { id := 1, created_by := 2, created_time := 3, active := true }
    update_fetch_one := fun _ _ =>
      .ok { last_updated_by := 4, last_updated_time := 5 } }

/-- A fresh entity: empty audit envelope. -/
def st0 : EntityState Unit Unit :=
  { data := (), manager := PostgresEntityManager.new () }

/-- An entity whose identifier is already populated. -/
def stWithId : EntityState Unit Unit :=
  { data := ()
    manager :=
      { entity_data :=
          { id := some 10
            created_time := some 11
            created_by := some 12
            last_updated_time := none
            last_updated_by := none
            active := some true }
        pool := () } }

/-- An entity with no identifier but a pre-populated creator field
(created_by 5). -/
def cexState : EntityState Unit Unit :=
  { data := ()
    manager :=
      { entity_data :=
          { id := none
            created_time := none
            created_by := some 5
            last_updated_time := none
            last_updated_by := none
            active := none }
        pool := () } }

/-- A fully populated entity manager. -/
def mgr1 : PostgresEntityManager Unit :=
  { entity_data :=
      { id := some 3
        created_time := some 4
        created_by := some 5
        last_updated_time := some 6
        last_updated_by := some 7
        active := some false }
    pool := () }

/-! ## Lemmas about the binding layer -/

lemma add_binding_eq (q : QueryAs) (v : Value) :
    add_binding_to_query q v =
      match boundParamOpt v with
      | some p => .ok (q.bind p)
      | none => .error .UnknownSqlType := by
  cases v <;> rfl

lemma boundParamOpt_isSome (v : Value) :
    (boundParamOpt v).isSome = v.isSupportedKind := by
  cases v <;> rfl

lemma add_bindings_shape :
    ∀ (vs : List Value) (t : String) (ps : List BoundParam),
      add_bindings_to_query ⟨t, ps⟩ vs =
        match bindList vs with
        | none => .error .UnknownSqlType
        | some qs => .ok ⟨t, ps ++ qs⟩
  | [], t, ps => by
    simp [add_bindings_to_query, bindList]
  | v :: rest, t, ps => by
    rw [add_bindings_to_query, add_binding_eq]
    cases hbp : boundParamOpt v with
    | none => simp [bindList, hbp]
    | some p =>
      have ih := add_bindings_shape rest t (ps ++ [p])
      simp only [bindList, hbp, QueryAs.bind]
      rw [ih]
      cases bindList rest with
      | none => simp
      | some qs => simp

lemma bindList_all_supported :
    ∀ vs : List Value, (∀ v ∈ vs, v.isSupportedKind = true) →
      ∃ ps, bindList vs = some ps ∧ ps.length = vs.length
  | [], _ => ⟨[], rfl, rfl⟩
  | v :: rest, h => by
    have hv : (boundParamOpt v).isSome = true := by
      rw [boundParamOpt_isSome]; exact h v (by simp)
    rcases Option.isSome_iff_exists.mp hv with ⟨p, hp⟩
    rcases bindList_all_supported rest (fun u hu => h u (by simp [hu])) with ⟨ps, hps, hlen⟩
    exact ⟨p :: ps, by simp [bindList, hp, hps], by simp [hlen]⟩

lemma bindList_first_unsupported :
    ∀ (pre : List Value) (bad : Value) (rest : List Value),
      (∀ v ∈ pre, v.isSupportedKind = true) → bad.isSupportedKind = false →
      bindList (pre ++ bad :: rest) = none
  | [], bad, rest, _, hbad => by
    have hb : boundParamOpt bad = none := by
      have h := boundParamOpt_isSome bad
      rw [hbad] at h
      exact Option.not_isSome_iff_eq_none.mp (by simp [h])
    simp [bindList, hb]
  | v :: pre, bad, rest, h, hbad => by
    have hv : (boundParamOpt v).isSome = true := by
      rw [boundParamOpt_isSome]; exact h v (by simp)
    rcases Option.isSome_iff_exists.mp hv with ⟨p, hp⟩
    have ih := bindList_first_unsupported pre bad rest (fun u hu => h u (by simp [hu])) hbad
    simp [bindList, hp, ih]

/-- C6: add_binding_to_query returns the UnknownSqlType error kind exactly on
the unsupported value kinds (everything other than Integer, Float, Double,
Text, Boolean, Enum, Uuid, DateTime) and otherwise binds the converted value
onto the query; add_bindings_to_query binds the supported values in list
order, never dropping a parameter, and fails with UnknownSqlType on the first
unsupported value. -/
theorem C6_binding_dispatch : ∀ (q : QueryAs) (v : Value) (vs : List Value),
    (add_binding_to_query q v = .error .UnknownSqlType ↔ v.isSupportedKind = false) ∧
    (v.isSupportedKind = true →
      ∃ p, boundParamOpt v = some p ∧ add_binding_to_query q v = .ok (q.bind p)) ∧
    ((∀ u ∈ vs, u.isSupportedKind = true) →
      ∃ ps, bindList vs = some ps ∧ ps.length = vs.length ∧
        add_bindings_to_query q vs = .ok { sql := q.sql, params := q.params ++ ps }) ∧
    (∀ (pre : List Value) (bad : Value) (rest : List Value),
      vs = pre ++ bad :: rest → (∀ u ∈ pre, u.isSupportedKind = true) →
      bad.isSupportedKind = false →
      add_bindings_to_query q vs = .error .UnknownSqlType) := by
  intro q v vs
  refine ⟨?_, ?_, ?_, ?_⟩
  · cases v <;> simp [add_binding_to_query, Value.isSupportedKind]
  · intro h
    cases v <;> first
      | exact ⟨_, rfl, rfl⟩
      | exact absurd h (by simp [Value.isSupportedKind])
  · intro h
    rcases bindList_all_supported vs h with ⟨ps, hps, hlen⟩
    refine ⟨ps, hps, hlen, ?_⟩
    have := add_bindings_shape vs q.sql q.params
    rw [hps] at this
    exact this
  · intro pre bad rest hsplit hpre hbad
    have hnone := bindList_first_unsupported pre bad rest hpre hbad
    have := add_bindings_shape vs q.sql q.params
    rw [hsplit, hnone] at this
    rw [hsplit]
    exact this

/-- Witness for C6: a concrete unsupported value in second position makes the
whole binding fail with UnknownSqlType. -/
theorem C6_binding_dispatch_witness :
    add_bindings_to_query ⟨"q", []⟩
      [Value.Boolean (some true), Value.Bytes, Value.Integer (some 1)] =
      .error .UnknownSqlType :=
  (C6_binding_dispatch ⟨"q", []⟩ Value.Bytes
      [Value.Boolean (some true), Value.Bytes, Value.Integer (some 1)]).2.2.2
    [Value.Boolean (some true)] Value.Bytes [Value.Integer (some 1)]
    rfl (by decide) rfl

/-- C7 counterexample: the error enum declared in mod.rs lines 125-133 names
exactly UnknownSqlType, QuaintError and SqlxError; no missing-identifier
variant is among them. -/
theorem C7_counterexample :
    burchillPostgresErrorVariantNames = ["UnknownSqlType", "QuaintError", "SqlxError"] ∧
    "MissingIdentifier" ∉ burchillPostgresErrorVariantNames ∧
    "MissingId" ∉ burchillPostgresErrorVariantNames ∧
    "MissingIdentifierError" ∉ burchillPostgresErrorVariantNames := by
  decide

/-- C7 (amended): the public error enum declares exactly the kinds
UnknownSqlType, QuaintError and SqlxError (entity.rs additionally references
an AnyhowError variant wrapping hook failures); every error value is of one of
these kinds, so no distinct missing-identifier-when-required kind exists. -/
theorem C7_amended_error_taxonomy :
    burchillPostgresErrorVariantNames = ["UnknownSqlType", "QuaintError", "SqlxError"] ∧
    ∀ e : BurchillPostgresError,
      e = .UnknownSqlType ∨ (∃ n, e = .QuaintError n) ∨
      (∃ n, e = .SqlxError n) ∨ (∃ n, e = .AnyhowError n) := by
  refine ⟨rfl, ?_⟩
  intro e
  cases e with
  | UnknownSqlType => exact Or.inl rfl
  | QuaintError n => exact Or.inr (Or.inl ⟨n, rfl⟩)
  | SqlxError n => exact Or.inr (Or.inr (Or.inl ⟨n, rfl⟩))
  | AnyhowError n => exact Or.inr (Or.inr (Or.inr ⟨n, rfl⟩))

/-- C4: set_id, set_created_time and set_created_by keep an already populated
field (first write wins) and write the field only when it is None. -/
theorem C4_first_write_wins :
    ∀ (E : Type) (m : PostgresEntityManager E) (u u' : Uuid) (t t' : DateTimeUtc),
    (m.entity_data.id = some u → (m.set_id u').entity_data.id = some u) ∧
    (m.entity_data.id = none → (m.set_id u').entity_data.id = some u') ∧
    (m.entity_data.created_time = some t →
      (m.set_created_time t').entity_data.created_time = some t) ∧
    (m.entity_data.created_time = none →
      (m.set_created_time t').entity_data.created_time = some t') ∧
    (m.entity_data.created_by = some u →
      (m.set_created_by u').entity_data.created_by = some u) ∧
    (m.entity_data.created_by = none →
      (m.set_created_by u').entity_data.created_by = some u') := by
  intro E m u u' t t'
  refine ⟨?_, ?_, ?_, ?_, ?_, ?_⟩ <;> intro h <;>
    simp [PostgresEntityManager.set_id, PostgresEntityManager.set_created_time,
      PostgresEntityManager.set_created_by, h]

/-- Witness for C4: setting the id of a populated manager is a no-op; setting
the id of a fresh manager writes it. -/
theorem C4_first_write_wins_witness :
    (mgr1.set_id 99).entity_data.id = some 3 ∧
    ((PostgresEntityManager.new (E := Unit) ()).set_id 99).entity_data.id = some 99 :=
  ⟨(C4_first_write_wins Unit mgr1 3 99 0 0).1 rfl,
   (C4_first_write_wins Unit (PostgresEntityManager.new ()) 0 99 0 0).2.1 rfl⟩

/-- C5: set_last_updated_time and set_last_updated_by always overwrite,
whatever the prior value of the field. -/
theorem C5_always_overwrite :
    ∀ (E : Type) (m : PostgresEntityManager E) (t : DateTimeUtc) (u : Uuid),
    (m.set_last_updated_time t).entity_data.last_updated_time = some t ∧
    (m.set_last_updated_by u).entity_data.last_updated_by = some u := by
  intro E m t u
  exact ⟨rfl, rfl⟩

/-! ## Lemmas about the RETURNING hack -/

lemma joinCommaSpace_cons_cons (v r : String) (rs : List String) :
    joinCommaSpace (v :: r :: rs) = v ++ ", " ++ joinCommaSpace (r :: rs) := by
  rfl

lemma append_returning_loop_join :
    ∀ (rest : List String) (v acc : String) (c : Nat),
      append_returning_loop (acc ++ v) (c + 1) rest = acc ++ joinCommaSpace (v :: rest)
  | [], v, acc, c => by
    simp [append_returning_loop, joinCommaSpace]
  | r :: rs, v, acc, c => by
    have ih := append_returning_loop_join rs r (acc ++ v ++ ", ") (c + 1)
    rw [joinCommaSpace_cons_cons]
    simp only [append_returning_loop]
    rw [if_neg (by simp)]
    rw [ih]
    simp [String.append_assoc]

lemma append_returning_spec (q : String) (rv : List String) :
    append_returning q rv =
      if rv.isEmpty then q else q ++ " RETURNING " ++ joinCommaSpace rv := by
  cases rv with
  | nil => rfl
  | cons v rest =>
    have h := append_returning_loop_join rest v (q ++ " RETURNING ") 0
    simp only [append_returning, List.length_cons, List.isEmpty_cons]
    rw [if_pos (by omega), if_neg (by simp)]
    simp only [append_returning_loop, show ((0 : Nat) == 0) = true by simp]
    exact h

/-- C10: update_and_fetch_one executes the built statement text with the
suffix " RETURNING " followed by the names joined by ", " appended when the
returning list is non-empty, the text unchanged when it is empty, and the
bound parameters are the same in both cases. -/
theorem C10_update_and_fetch_one_returning :
    ∀ (T : Type) (q : String) (b : List Value) (rv : List String)
      (fetch : QueryAs → Except Nat T),
    (append_returning q rv =
      if rv.isEmpty then q else q ++ " RETURNING " ++ joinCommaSpace rv) ∧
    (update_and_fetch_one T (.ok (q, b)) rv fetch =
      match create_sqlx_query (append_returning q rv) b with
      | .error e => .error e
      | .ok qa =>
        match fetch qa with
        | .ok r => .ok r
        | .error err => .error (.SqlxError err)) ∧
    (∀ qa, create_sqlx_query (append_returning q rv) b = .ok qa →
      qa.sql = append_returning q rv ∧
      ∃ qa', create_sqlx_query q b = .ok qa' ∧ qa'.params = qa.params ∧ qa'.sql = q) := by
  intro T q b rv fetch
  refine ⟨append_returning_spec q rv, rfl, ?_⟩
  intro qa h
  unfold create_sqlx_query at h ⊢
  rw [add_bindings_shape b (append_returning q rv) []] at h
  cases hb : bindList b with
  | none => rw [hb] at h; cases h
  | some ps =>
    rw [hb] at h
    simp only [List.nil_append] at h
    cases h
    refine ⟨rfl, ⟨q, ps⟩, ?_, rfl, rfl⟩
    rw [add_bindings_shape b q [], hb]
    simp

/-- Witness for C10: with one bound integer and two returning names, the ok
query keeps the appended text and the parameters are those of the plain
text. -/
theorem C10_update_and_fetch_one_returning_witness :
    ((QueryAs.mk (append_returning "u" ["a", "b"]) [BoundParam.i64 (some 3)]).sql =
      append_returning "u" ["a", "b"]) ∧
    ∃ qa', create_sqlx_query "u" [Value.Integer (some 3)] = .ok qa' ∧
      qa'.params =
        (QueryAs.mk (append_returning "u" ["a", "b"]) [BoundParam.i64 (some 3)]).params ∧
      qa'.sql = "u" :=
  (C10_update_and_fetch_one_returning Nat "u" [Value.Integer (some 3)] ["a", "b"]
      (fun _ => .ok 0)).2.2
    ⟨append_returning "u" ["a", "b"], [BoundParam.i64 (some 3)]⟩ rfl

/-! ## Scenario lemmas for the lifecycle -/

section LifecycleLemmas

variable {D E : Type} (impl : EntityImpl D E) (w : World E) (uid : Uuid) (ex : E)

lemma insert_pre_hook_fails {s s1 : EntityState D E} {er : Nat}
    (h1 : impl.pre_insert_hook s = (s1, some er)) :
    insert impl w uid ex s =
      { state := s1, result := .error (.AnyhowError er), trips := [] } := by
  unfold insert
  simp only [h1]

lemma insert_build_fails {s s1 : EntityState D E} {er : Nat}
    (h1 : impl.pre_insert_hook s = (s1, none))
    (h2 : impl.create_insert_query s1 = .error er) :
    insert impl w uid ex s =
      { state := s1, result := .error (.AnyhowError er), trips := [] } := by
  unfold insert create_audited_insert_query
  simp only [h1, h2]

lemma insert_fetch_fails {s s1 : EntityState D E} {base : Nat}
    {err : BurchillPostgresError}
    (h1 : impl.pre_insert_hook s = (s1, none))
    (h2 : impl.create_insert_query s1 = .ok base)
    (h3 : w.insert_fetch_one ex { base := base, created_by := uid } = .error err) :
    insert impl w uid ex s =
      { state := s1, result := .error err,
        trips := [.insertTrip { base := base, created_by := uid }] } := by
  unfold insert create_audited_insert_query
  simp only [h1, h2, h3]

lemma insert_post_hook_fails {s s1 s3 : EntityState D E} {base : Nat}
    {r : InsertReturn} {er : Nat}
    (h1 : impl.pre_insert_hook s = (s1, none))
    (h2 : impl.create_insert_query s1 = .ok base)
    (h3 : w.insert_fetch_one ex { base := base, created_by := uid } = .ok r)
    (h4 : impl.post_insert_hook
      { s1 with manager :=
          (((s1.manager.set_id r.id).set_created_by r.created_by).set_created_time
            r.created_time).set_active r.active } = (s3, some er)) :
    insert impl w uid ex s =
      { state := s3, result := .error (.AnyhowError er),
        trips := [.insertTrip { base := base, created_by := uid }] } := by
  unfold insert create_audited_insert_query
  simp only [h1, h2, h3, h4]

lemma insert_ok_run {s s1 s3 : EntityState D E} {base : Nat} {r : InsertReturn}
    (h1 : impl.pre_insert_hook s = (s1, none))
    (h2 : impl.create_insert_query s1 = .ok base)
    (h3 : w.insert_fetch_one ex { base := base, created_by := uid } = .ok r)
    (h4 : impl.post_insert_hook
      { s1 with manager :=
          (((s1.manager.set_id r.id).set_created_by r.created_by).set_created_time
            r.created_time).set_active r.active } = (s3, none)) :
    insert impl w uid ex s =
      { state := s3, result := .ok (),
        trips := [.insertTrip { base := base, created_by := uid }] } := by
  unfold insert create_audited_insert_query
  simp only [h1, h2, h3, h4]

lemma update_pre_hook_fails {s s1 : EntityState D E} {er : Nat}
    (h1 : impl.pre_update_hook s = (s1, some er)) :
    update impl w uid ex s =
      { state := s1, result := .error (.AnyhowError er), trips := [] } := by
  unfold update
  simp only [h1]

lemma update_build_fails {s s1 : EntityState D E} {er : Nat}
    (h1 : impl.pre_update_hook s = (s1, none))
    (h2 : impl.create_update_query s1 = .error er) :
    update impl w uid ex s =
      { state := s1, result := .error (.AnyhowError er), trips := [] } := by
  unfold update create_audited_update_query
  simp only [h1, h2]

lemma update_fetch_fails {s s1 : EntityState D E} {base : Nat}
    {err : BurchillPostgresError}
    (h1 : impl.pre_update_hook s = (s1, none))
    (h2 : impl.create_update_query s1 = .ok base)
    (h3 : w.update_fetch_one ex
      { base := base, last_updated_time := w.now, last_updated_by := uid } = .error err) :
    update impl w uid ex s =
      { state := s1, result := .error err,
        trips := [.updateTrip
          { base := base, last_updated_time := w.now, last_updated_by := uid }] } := by
  unfold update create_audited_update_query
  simp only [h1, h2, h3]

lemma update_post_hook_fails {s s1 s3 : EntityState D E} {base : Nat}
    {r : UpdateReturn} {er : Nat}
    (h1 : impl.pre_update_hook s = (s1, none))
    (h2 : impl.create_update_query s1 = .ok base)
    (h3 : w.update_fetch_one ex
      { base := base, last_updated_time := w.now, last_updated_by := uid } = .ok r)
    (h4 : impl.post_update_hook
      { s1 with manager :=
          ((s1.manager.set_last_updated_by r.last_updated_by).set_last_updated_time
            r.last_updated_time) } = (s3, some er)) :
    update impl w uid ex s =
      { state := s3, result := .error (.AnyhowError er),
        trips := [.updateTrip
          { base := base, last_updated_time := w.now, last_updated_by := uid }] } := by
  unfold update create_audited_update_query
  simp only [h1, h2, h3, h4]

lemma update_ok_run {s s1 s3 : EntityState D E} {base : Nat} {r : UpdateReturn}
    (h1 : impl.pre_update_hook s = (s1, none))
    (h2 : impl.create_update_query s1 = .ok base)
    (h3 : w.update_fetch_one ex
      { base := base, last_updated_time := w.now, last_updated_by := uid } = .ok r)
    (h4 : impl.post_update_hook
      { s1 with manager :=
          ((s1.manager.set_last_updated_by r.last_updated_by).set_last_updated_time
            r.last_updated_time) } = (s3, none)) :
    update impl w uid ex s =
      { state := s3, result := .ok (),
        trips := [.updateTrip
          { base := base, last_updated_time := w.now, last_updated_by := uid }] } := by
  unfold update create_audited_update_query
  simp only [h1, h2, h3, h4]

lemma save_pre_hook_fails {s s1 : EntityState D E} {er : Nat}
    (h1 : impl.pre_save_hook s = (s1, some er)) :
    save impl w uid ex s =
      { state := s1, result := .error (.AnyhowError er), trips := [] } := by
  unfold save
  simp only [h1]

lemma save_dispatch {s s1 : EntityState D E}
    (h1 : impl.pre_save_hook s = (s1, none)) :
    save impl w uid ex s =
      post_save_wrap impl
        (match s1.manager.get_id with
         | some _ => update impl w uid ex s1
         | none => insert impl w uid ex s1) := by
  unfold save post_save_wrap
  simp only [h1]

lemma save_id_some {s s1 : EntityState D E} {v : Uuid}
    (h1 : impl.pre_save_hook s = (s1, none))
    (h2 : s1.manager.get_id = some v) :
    save impl w uid ex s = post_save_wrap impl (update impl w uid ex s1) := by
  rw [save_dispatch impl w uid ex h1, h2]

lemma save_id_none {s s1 : EntityState D E}
    (h1 : impl.pre_save_hook s = (s1, none))
    (h2 : s1.manager.get_id = none) :
    save impl w uid ex s = post_save_wrap impl (insert impl w uid ex s1) := by
  rw [save_dispatch impl w uid ex h1, h2]

lemma post_save_wrap_err {o : Outcome D E} {er : BurchillPostgresError}
    (h : o.result = .error er) :
    post_save_wrap impl o =
      { state := o.state, result := .error er, trips := o.trips } := by
  unfold post_save_wrap
  simp only [h]

lemma post_save_wrap_ok_some {o : Outcome D E} {s3 : EntityState D E} {er : Nat}
    (h : o.result = .ok ())
    (hp : impl.post_save_hook o.state = (s3, some er)) :
    post_save_wrap impl o =
      { state := s3, result := .error (.AnyhowError er), trips := o.trips } := by
  unfold post_save_wrap
  simp only [h, hp]

lemma post_save_wrap_ok_none {o : Outcome D E} {s3 : EntityState D E}
    (h : o.result = .ok ())
    (hp : impl.post_save_hook o.state = (s3, none)) :
    post_save_wrap impl o = { state := s3, result := .ok (), trips := o.trips } := by
  unfold post_save_wrap
  simp only [h, hp]

lemma post_save_wrap_trips (o : Outcome D E) :
    (post_save_wrap impl o).trips = o.trips := by
  rcases ho : o.result with er | v
  · rw [post_save_wrap_err impl ho]
  · cases v
    rcases hp : impl.post_save_hook o.state with ⟨s3, herr⟩
    cases herr with
    | some er => rw [post_save_wrap_ok_some impl ho hp]
    | none => rw [post_save_wrap_ok_none impl ho hp]

lemma post_save_wrap_result_ok {o : Outcome D E}
    (h : (post_save_wrap impl o).result = .ok ()) : o.result = .ok () := by
  rcases ho : o.result with er | v
  · rw [post_save_wrap_err impl ho] at h
    simp at h
  · cases v
    rfl

lemma insert_ok_inv {s : EntityState D E}
    (hok : (insert impl w uid ex s).result = .ok ()) :
    ∃ s1 base r s3,
      impl.pre_insert_hook s = (s1, none) ∧
      impl.create_insert_query s1 = .ok base ∧
      w.insert_fetch_one ex { base := base, created_by := uid } = .ok r ∧
      impl.post_insert_hook
        { s1 with manager :=
            (((s1.manager.set_id r.id).set_created_by r.created_by).set_created_time
              r.created_time).set_active r.active } = (s3, none) ∧
      insert impl w uid ex s =
        { state := s3, result := .ok (),
          trips := [.insertTrip { base := base, created_by := uid }] } := by
  rcases h1 : impl.pre_insert_hook s with ⟨s1, herr⟩
  cases herr with
  | some er => rw [insert_pre_hook_fails impl w uid ex h1] at hok; simp at hok
  | none =>
    rcases h2 : impl.create_insert_query s1 with er | base
    · rw [insert_build_fails impl w uid ex h1 h2] at hok; simp at hok
    · rcases h3 : w.insert_fetch_one ex { base := base, created_by := uid } with er | r
      · rw [insert_fetch_fails impl w uid ex h1 h2 h3] at hok; simp at hok
      · rcases h4 : impl.post_insert_hook
          { s1 with manager :=
              (((s1.manager.set_id r.id).set_created_by r.created_by).set_created_time
                r.created_time).set_active r.active } with ⟨s3, herr2⟩
        cases herr2 with
        | some er =>
          rw [insert_post_hook_fails impl w uid ex h1 h2 h3 h4] at hok; simp at hok
        | none =>
          exact ⟨s1, base, r, s3, rfl, h2, h3, h4,
            insert_ok_run impl w uid ex h1 h2 h3 h4⟩

lemma update_ok_inv {s : EntityState D E}
    (hok : (update impl w uid ex s).result = .ok ()) :
    ∃ s1 base r s3,
      impl.pre_update_hook s = (s1, none) ∧
      impl.create_update_query s1 = .ok base ∧
      w.update_fetch_one ex
        { base := base, last_updated_time := w.now, last_updated_by := uid } = .ok r ∧
      impl.post_update_hook
        { s1 with manager :=
            ((s1.manager.set_last_updated_by r.last_updated_by).set_last_updated_time
              r.last_updated_time) } = (s3, none) ∧
      update impl w uid ex s =
        { state := s3, result := .ok (),
          trips := [.updateTrip
            { base := base, last_updated_time := w.now, last_updated_by := uid }] } := by
  rcases h1 : impl.pre_update_hook s with ⟨s1, herr⟩
  cases herr with
  | some er => rw [update_pre_hook_fails impl w uid ex h1] at hok; simp at hok
  | none =>
    rcases h2 : impl.create_update_query s1 with er | base
    · rw [update_build_fails impl w uid ex h1 h2] at hok; simp at hok
    · rcases h3 : w.update_fetch_one ex
        { base := base, last_updated_time := w.now, last_updated_by := uid } with er | r
      · rw [update_fetch_fails impl w uid ex h1 h2 h3] at hok; simp at hok
      · rcases h4 : impl.post_update_hook
          { s1 with manager :=
              ((s1.manager.set_last_updated_by r.last_updated_by).set_last_updated_time
                r.last_updated_time) } with ⟨s3, herr2⟩
        cases herr2 with
        | some er =>
          rw [update_post_hook_fails impl w uid ex h1 h2 h3 h4] at hok; simp at hok
        | none =>
          exact ⟨s1, base, r, s3, rfl, h2, h3, h4,
            update_ok_run impl w uid ex h1 h2 h3 h4⟩

lemma insert_trips_cases (s : EntityState D E) :
    (insert impl w uid ex s).trips = [] ∨
    ∃ q, (insert impl w uid ex s).trips = [DbOp.insertTrip q] := by
  rcases h1 : impl.pre_insert_hook s with ⟨s1, herr⟩
  cases herr with
  | some er => rw [insert_pre_hook_fails impl w uid ex h1]; exact Or.inl rfl
  | none =>
    rcases h2 : impl.create_insert_query s1 with er | base
    · rw [insert_build_fails impl w uid ex h1 h2]; exact Or.inl rfl
    · rcases h3 : w.insert_fetch_one ex { base := base, created_by := uid } with er | r
      · rw [insert_fetch_fails impl w uid ex h1 h2 h3]; exact Or.inr ⟨_, rfl⟩
      · rcases h4 : impl.post_insert_hook
          { s1 with manager :=
              (((s1.manager.set_id r.id).set_created_by r.created_by).set_created_time
                r.created_time).set_active r.active } with ⟨s3, herr2⟩
        cases herr2 with
        | some er =>
          rw [insert_post_hook_fails impl w uid ex h1 h2 h3 h4]; exact Or.inr ⟨_, rfl⟩
        | none =>
          rw [insert_ok_run impl w uid ex h1 h2 h3 h4]; exact Or.inr ⟨_, rfl⟩

lemma update_trips_cases (s : EntityState D E) :
    (update impl w uid ex s).trips = [] ∨
    ∃ q, (update impl w uid ex s).trips = [DbOp.updateTrip q] := by
  rcases h1 : impl.pre_update_hook s with ⟨s1, herr⟩
  cases herr with
  | some er => rw [update_pre_hook_fails impl w uid ex h1]; exact Or.inl rfl
  | none =>
    rcases h2 : impl.create_update_query s1 with er | base
    · rw [update_build_fails impl w uid ex h1 h2]; exact Or.inl rfl
    · rcases h3 : w.update_fetch_one ex
        { base := base, last_updated_time := w.now, last_updated_by := uid } with er | r
      · rw [update_fetch_fails impl w uid ex h1 h2 h3]; exact Or.inr ⟨_, rfl⟩
      · rcases h4 : impl.post_update_hook
          { s1 with manager :=
              ((s1.manager.set_last_updated_by r.last_updated_by).set_last_updated_time
                r.last_updated_time) } with ⟨s3, herr2⟩
        cases herr2 with
        | some er =>
          rw [update_post_hook_fails impl w uid ex h1 h2 h3 h4]; exact Or.inr ⟨_, rfl⟩
        | none =>
          rw [update_ok_run impl w uid ex h1 h2 h3 h4]; exact Or.inr ⟨_, rfl⟩

end LifecycleLemmas

/-- Envelope effect of the four insert write-backs. -/
lemma set_chain_insert_env {E : Type} (m : PostgresEntityManager E) (r : InsertReturn) :
    ((((m.set_id r.id).set_created_by r.created_by).set_created_time
        r.created_time).set_active r.active).entity_data =
      { id := match m.entity_data.id with | none => some r.id | some v => some v
        created_by :=
          match m.entity_data.created_by with | none => some r.created_by | some v => some v
        created_time :=
          match m.entity_data.created_time with | none => some r.created_time | some v => some v
        last_updated_time := m.entity_data.last_updated_time
        last_updated_by := m.entity_data.last_updated_by
        active := some r.active } := by
  rcases m with ⟨⟨id, ct, cb, lut, lub, act⟩, pool⟩
  cases id <;> cases ct <;> cases cb <;> rfl

/-- Envelope effect of the two update write-backs. -/
lemma set_chain_update_env {E : Type} (m : PostgresEntityManager E) (r : UpdateReturn) :
    ((m.set_last_updated_by r.last_updated_by).set_last_updated_time
        r.last_updated_time).entity_data =
      { m.entity_data with
          last_updated_by := some r.last_updated_by
          last_updated_time := some r.last_updated_time } := by
  rcases m with ⟨⟨id, ct, cb, lut, lub, act⟩, pool⟩
  rfl

/-- Eliminates the error-propagation match of `quicksave` (the Rust
question-mark operator followed by `Ok(())`). -/
lemma outcome_match_eta {D E : Type} (o : Outcome D E) :
    (match o.result with
     | .error err => ({ state := o.state, result := .error err, trips := o.trips } : Outcome D E)
     | .ok () => { state := o.state, result := .ok (), trips := o.trips }) = o := by
  rcases o with ⟨st, res, tr⟩
  cases res with
  | error er => rfl
  | ok v => cases v; rfl

/-! ## The lifecycle claims -/

/-- C1: save dispatches on the presence of the identifier: when the
identifier is present the trace holds only update round trips, and a
successful save made exactly one; when it is absent, dually for insert.
Stated for a pre-save hook that does not alter the audit envelope. -/
theorem C1_save_dispatch :
    ∀ (D E : Type) (impl : EntityImpl D E) (w : World E) (uid : Uuid) (ex : E)
      (s : EntityState D E),
    preserves_envelope impl.pre_save_hook →
    ((∀ v : Uuid, s.manager.get_id = some v →
        (save impl w uid ex s).trips.all DbOp.isUpdateTrip = true ∧
        ((save impl w uid ex s).result = .ok () →
          (save impl w uid ex s).trips.length = 1 ∧
          (save impl w uid ex s).trips.all DbOp.isUpdateTrip = true)) ∧
     (s.manager.get_id = none →
        (save impl w uid ex s).trips.all DbOp.isInsertTrip = true ∧
        ((save impl w uid ex s).result = .ok () →
          (save impl w uid ex s).trips.length = 1 ∧
          (save impl w uid ex s).trips.all DbOp.isInsertTrip = true))) := by
  intro D E impl w uid ex s hpre
  rcases h1 : impl.pre_save_hook s with ⟨s1, herr⟩
  have hid : s1.manager.get_id = s.manager.get_id := by
    have h := hpre s
    rw [h1] at h
    unfold PostgresEntityManager.get_id
    rw [h]
  cases herr with
  | some er =>
    have hsave := save_pre_hook_fails impl w uid ex h1
    constructor
    · intro v hv
      rw [hsave]
      exact ⟨rfl, by intro hk; simp at hk⟩
    · intro hv
      rw [hsave]
      exact ⟨rfl, by intro hk; simp at hk⟩
  | none =>
    constructor
    · intro v hv
      have hs : save impl w uid ex s = post_save_wrap impl (update impl w uid ex s1) :=
        save_id_some impl w uid ex h1 (hid.trans hv)
      rw [hs, post_save_wrap_trips]
      constructor
      · rcases update_trips_cases impl w uid ex s1 with h | ⟨q, h⟩ <;> rw [h] <;> rfl
      · intro hk
        have hik : (update impl w uid ex s1).result = .ok () :=
          post_save_wrap_result_ok impl hk
        rcases update_ok_inv impl w uid ex hik with ⟨_, _, _, _, _, _, _, _, heq⟩
        rw [heq]
        exact ⟨rfl, rfl⟩
    · intro hv
      have hs : save impl w uid ex s = post_save_wrap impl (insert impl w uid ex s1) :=
        save_id_none impl w uid ex h1 (hid.trans hv)
      rw [hs, post_save_wrap_trips]
      constructor
      · rcases insert_trips_cases impl w uid ex s1 with h | ⟨q, h⟩ <;> rw [h] <;> rfl
      · intro hk
        have hik : (insert impl w uid ex s1).result = .ok () :=
          post_save_wrap_result_ok impl hk
        rcases insert_ok_inv impl w uid ex hik with ⟨_, _, _, _, _, _, _, _, heq⟩
        rw [heq]
        exact ⟨rfl, rfl⟩

/-- Witness for C1: an entity with an identifier saves through exactly one
update round trip; a fresh entity saves through exactly one insert round
trip. -/
theorem C1_save_dispatch_witness :
    ((save defaultImpl w0 9 () stWithId).trips.all DbOp.isUpdateTrip = true ∧
     (save defaultImpl w0 9 () stWithId).trips.length = 1) ∧
    ((save defaultImpl w0 9 () st0).trips.all DbOp.isInsertTrip = true ∧
     (save defaultImpl w0 9 () st0).trips.length = 1) :=
  ⟨⟨((C1_save_dispatch Unit Unit defaultImpl w0 9 () stWithId (fun _ => rfl)).1
        10 rfl).1,
    (((C1_save_dispatch Unit Unit defaultImpl w0 9 () stWithId (fun _ => rfl)).1
        10 rfl).2 rfl).1⟩,
   ⟨((C1_save_dispatch Unit Unit defaultImpl w0 9 () st0 (fun _ => rfl)).2 rfl).1,
    (((C1_save_dispatch Unit Unit defaultImpl w0 9 () st0 (fun _ => rfl)).2 rfl).2
        rfl).1⟩⟩

/-- C2 counterexample: an insert on an entity whose creator field is already
populated (created_by 5) succeeds, the store returns created_by 2, yet the
entity keeps created_by 5 afterwards — the first-write-wins setters do not
overwrite, contradicting "regardless of any values those entity fields held
before the call". -/
theorem C2_counterexample :
    (insert defaultImpl w0 9 () cexState).result = .ok () ∧
    w0.insert_fetch_one () { base := 0, created_by := 9 } =
      .ok { id := 1, created_by := 2, created_time := 3, active := true } ∧
    (insert defaultImpl w0 9 () cexState).state.manager.entity_data.created_by = some 5 ∧
    ¬ (insert defaultImpl w0 9 () cexState).state.manager.entity_data.created_by = some 2 := by
  refine ⟨rfl, rfl, rfl, ?_⟩
  decide

/-- C2 (amended): after a successful insert (with hooks that do not alter the
audit envelope), the identifier, creator and creation time equal the
store-returned values only when they were empty before the call — a
pre-populated field keeps its prior value — while the active flag always
equals the store-returned value; the last-updated fields are unchanged. -/
theorem C2_amended_insert_writeback :
    ∀ (D E : Type) (impl : EntityImpl D E) (w : World E) (uid : Uuid) (ex : E)
      (s : EntityState D E),
    preserves_envelope impl.pre_insert_hook →
    preserves_envelope impl.post_insert_hook →
    (insert impl w uid ex s).result = .ok () →
    ∃ q r, (insert impl w uid ex s).trips = [DbOp.insertTrip q] ∧
      w.insert_fetch_one ex q = .ok r ∧
      (insert impl w uid ex s).state.manager.entity_data.id =
        (match s.manager.entity_data.id with
         | none => some r.id | some v => some v) ∧
      (insert impl w uid ex s).state.manager.entity_data.created_by =
        (match s.manager.entity_data.created_by with
         | none => some r.created_by | some v => some v) ∧
      (insert impl w uid ex s).state.manager.entity_data.created_time =
        (match s.manager.entity_data.created_time with
         | none => some r.created_time | some v => some v) ∧
      (insert impl w uid ex s).state.manager.entity_data.active = some r.active ∧
      (insert impl w uid ex s).state.manager.entity_data.last_updated_time =
        s.manager.entity_data.last_updated_time ∧
      (insert impl w uid ex s).state.manager.entity_data.last_updated_by =
        s.manager.entity_data.last_updated_by := by
  intro D E impl w uid ex s hpre hpost hok
  rcases insert_ok_inv impl w uid ex hok with ⟨s1, base, r, s3, h1, h2, h3, h4, heq⟩
  have henv1 : s1.manager.entity_data = s.manager.entity_data := by
    have h := hpre s
    rw [h1] at h
    exact h
  have henv3 : s3.manager.entity_data =
      ((((s1.manager.set_id r.id).set_created_by r.created_by).set_created_time
        r.created_time).set_active r.active).entity_data := by
    have h := hpost
      { s1 with manager :=
          ((((s1.manager.set_id r.id).set_created_by r.created_by).set_created_time
            r.created_time).set_active r.active) }
    rw [h4] at h
    exact h
  rw [set_chain_insert_env] at henv3
  rw [heq]
  refine ⟨_, r, rfl, h3, ?_, ?_, ?_, ?_, ?_, ?_⟩ <;> simp [henv3, henv1]

/-- Witness for C2 (amended): on the pre-populated entity the active flag is
written from the returned row. -/
theorem C2_amended_insert_writeback_witness :
    (insert defaultImpl w0 9 () cexState).state.manager.entity_data.active = some true := by
  obtain ⟨q, r, htr, hf, hid, hcb, hct, hact, _, _⟩ :=
    C2_amended_insert_writeback Unit Unit defaultImpl w0 9 () cexState
      (fun _ => rfl) (fun _ => rfl) rfl
  have hr : (Except.ok { id := 1, created_by := 2, created_time := 3, active := true } :
      Except BurchillPostgresError InsertReturn) = .ok r := hf
  injection hr with hr2
  rw [← hr2] at hact
  exact hact

/-- C3: after a successful update (with hooks that do not alter the audit
envelope), the identifier, creator, creation time and active flag are
unchanged, and the last-updated fields hold exactly the store-returned
values. -/
theorem C3_update_frame :
    ∀ (D E : Type) (impl : EntityImpl D E) (w : World E) (uid : Uuid) (ex : E)
      (s : EntityState D E),
    preserves_envelope impl.pre_update_hook →
    preserves_envelope impl.post_update_hook →
    (update impl w uid ex s).result = .ok () →
    ((update impl w uid ex s).state.manager.entity_data.id =
        s.manager.entity_data.id ∧
     (update impl w uid ex s).state.manager.entity_data.created_by =
        s.manager.entity_data.created_by ∧
     (update impl w uid ex s).state.manager.entity_data.created_time =
        s.manager.entity_data.created_time ∧
     (update impl w uid ex s).state.manager.entity_data.active =
        s.manager.entity_data.active) ∧
    ∃ q r, (update impl w uid ex s).trips = [DbOp.updateTrip q] ∧
      w.update_fetch_one ex q = .ok r ∧
      (update impl w uid ex s).state.manager.entity_data.last_updated_by =
        some r.last_updated_by ∧
      (update impl w uid ex s).state.manager.entity_data.last_updated_time =
        some r.last_updated_time := by
  intro D E impl w uid ex s hpre hpost hok
  rcases update_ok_inv impl w uid ex hok with ⟨s1, base, r, s3, h1, h2, h3, h4, heq⟩
  have henv1 : s1.manager.entity_data = s.manager.entity_data := by
    have h := hpre s
    rw [h1] at h
    exact h
  have henv3 : s3.manager.entity_data =
      ((s1.manager.set_last_updated_by r.last_updated_by).set_last_updated_time
        r.last_updated_time).entity_data := by
    have h := hpost
      { s1 with manager :=
          ((s1.manager.set_last_updated_by r.last_updated_by).set_last_updated_time
            r.last_updated_time) }
    rw [h4] at h
    exact h
  rw [set_chain_update_env] at henv3
  rw [heq]
  constructor
  · refine ⟨?_, ?_, ?_, ?_⟩ <;> simp [henv3, henv1]
  · exact ⟨_, r, rfl, h3, by simp [henv3], by simp [henv3]⟩

/-- Witness for C3: a successful concrete update leaves the identifier of the
entity unchanged. -/
theorem C3_update_frame_witness :
    (update defaultImpl w0 9 () stWithId).state.manager.entity_data.id =
      stWithId.manager.entity_data.id :=
  (C3_update_frame Unit Unit defaultImpl w0 9 () stWithId
      (fun _ => rfl) (fun _ => rfl) rfl).1.1

/-- C8: a failing pre-hook aborts the enclosing operation with that error
before any database round trip, leaving the audit envelope exactly as before
the call; a failing post-hook surfaces its error after the round trip with
the envelope as written by the preceding stage.  Stated for hooks that do not
themselves alter the audit envelope. -/
theorem C8_hook_failure_boundaries :
    ∀ (D E : Type) (impl : EntityImpl D E) (w : World E) (uid : Uuid) (ex : E),
    hooks_preserve_envelope impl →
    (∀ s s1 er, impl.pre_save_hook s = (s1, some er) →
      save impl w uid ex s =
        { state := s1, result := .error (.AnyhowError er), trips := [] } ∧
      s1.manager.entity_data = s.manager.entity_data) ∧
    (∀ s s1 er, impl.pre_insert_hook s = (s1, some er) →
      insert impl w uid ex s =
        { state := s1, result := .error (.AnyhowError er), trips := [] } ∧
      s1.manager.entity_data = s.manager.entity_data) ∧
    (∀ s s1 er, impl.pre_update_hook s = (s1, some er) →
      update impl w uid ex s =
        { state := s1, result := .error (.AnyhowError er), trips := [] } ∧
      s1.manager.entity_data = s.manager.entity_data) ∧
    (∀ s s1 base r s3 er,
      impl.pre_insert_hook s = (s1, none) →
      impl.create_insert_query s1 = .ok base →
      w.insert_fetch_one ex { base := base, created_by := uid } = .ok r →
      impl.post_insert_hook
        { s1 with manager :=
            ((((s1.manager.set_id r.id).set_created_by r.created_by).set_created_time
              r.created_time).set_active r.active) } = (s3, some er) →
      insert impl w uid ex s =
        { state := s3, result := .error (.AnyhowError er),
          trips := [.insertTrip { base := base, created_by := uid }] } ∧
      s3.manager.entity_data =
        ((((s1.manager.set_id r.id).set_created_by r.created_by).set_created_time
          r.created_time).set_active r.active).entity_data) ∧
    (∀ s s1 base r s3 er,
      impl.pre_update_hook s = (s1, none) →
      impl.create_update_query s1 = .ok base →
      w.update_fetch_one ex
        { base := base, last_updated_time := w.now, last_updated_by := uid } = .ok r →
      impl.post_update_hook
        { s1 with manager :=
            ((s1.manager.set_last_updated_by r.last_updated_by).set_last_updated_time
              r.last_updated_time) } = (s3, some er) →
      update impl w uid ex s =
        { state := s3, result := .error (.AnyhowError er),
          trips := [.updateTrip
            { base := base, last_updated_time := w.now, last_updated_by := uid }] } ∧
      s3.manager.entity_data =
        ((s1.manager.set_last_updated_by r.last_updated_by).set_last_updated_time
          r.last_updated_time).entity_data) ∧
    (∀ s s1 er s3 (inner : Outcome D E),
      impl.pre_save_hook s = (s1, none) →
      inner = (match s1.manager.get_id with
               | some _ => update impl w uid ex s1
               | none => insert impl w uid ex s1) →
      inner.result = .ok () →
      impl.post_save_hook inner.state = (s3, some er) →
      save impl w uid ex s =
        { state := s3, result := .error (.AnyhowError er), trips := inner.trips } ∧
      s3.manager.entity_data = inner.state.manager.entity_data) := by
  intro D E impl w uid ex hooks
  obtain ⟨hps, hpss, hpi, hpsi, hpu, hpsu⟩ := hooks
  refine ⟨?_, ?_, ?_, ?_, ?_, ?_⟩
  · intro s s1 er h1
    refine ⟨save_pre_hook_fails impl w uid ex h1, ?_⟩
    have h := hps s
    rw [h1] at h
    exact h
  · intro s s1 er h1
    refine ⟨insert_pre_hook_fails impl w uid ex h1, ?_⟩
    have h := hpi s
    rw [h1] at h
    exact h
  · intro s s1 er h1
    refine ⟨update_pre_hook_fails impl w uid ex h1, ?_⟩
    have h := hpu s
    rw [h1] at h
    exact h
  · intro s s1 base r s3 er h1 h2 h3 h4
    refine ⟨insert_post_hook_fails impl w uid ex h1 h2 h3 h4, ?_⟩
    have h := hpsi
      { s1 with manager :=
          ((((s1.manager.set_id r.id).set_created_by r.created_by).set_created_time
            r.created_time).set_active r.active) }
    rw [h4] at h
    exact h
  · intro s s1 base r s3 er h1 h2 h3 h4
    refine ⟨update_post_hook_fails impl w uid ex h1 h2 h3 h4, ?_⟩
    have h := hpsu
      { s1 with manager :=
          ((s1.manager.set_last_updated_by r.last_updated_by).set_last_updated_time
            r.last_updated_time) }
    rw [h4] at h
    exact h
  · intro s s1 er s3 inner h1 hin hok hph
    constructor
    · rw [save_dispatch impl w uid ex h1, ← hin]
      exact post_save_wrap_ok_some impl hok hph
    · have h := hpss inner.state
      rw [hph] at h
      exact h

/-- Witness for C8: a failing pre-save hook on a fresh entity aborts with its
error, with no round trip and an unchanged envelope. -/
theorem C8_hook_failure_boundaries_witness :
    save failSaveImpl w0 0 () st0 =
      { state := st0, result := .error (.AnyhowError 7), trips := [] } ∧
    st0.manager.entity_data = st0.manager.entity_data :=
  (C8_hook_failure_boundaries Unit Unit failSaveImpl w0 0 ()
      ⟨fun _ => rfl, fun _ => rfl, fun _ => rfl, fun _ => rfl, fun _ => rfl,
       fun _ => rfl⟩).1
    st0 st0 7 rfl

/-- C9: quicksave behaves exactly as save called with the entity's own pool
as the executor: same result and same final state (and same trace). -/
theorem C9_quicksave_refines_save :
    ∀ (D E : Type) (impl : EntityImpl D E) (w : World E) (uid : Uuid)
      (s : EntityState D E),
    quicksave impl w uid s = save impl w uid s.manager.get_pool s := by
  intro D E impl w uid s
  unfold quicksave
  exact outcome_match_eta (save impl w uid s.manager.get_pool s)

end Burchill
